import Mathlib

/-!
Shallow embedding of the bankingFraud decision engine.

Sources embedded here:
  * `src/src/store.ts` — `evaluateTransactionRisk`, `checkSecurityControls`,
    `simpleHash` / `verifyHash`, seed data shapes;
  * `src/src/App.tsx` — `handleLogin`, `executeTransfer`, `handleTransfer`,
    `validateInput`;
  * `src/src/components/AttackSimulation.tsx` — the transfer phases of the
    Account Takeover and Phishing scenarios.

Modelling conventions: JS numbers that only ever hold integral currency
amounts, timestamps and counters are `Int` (or `Nat` for the risk score,
which the code keeps in 0..100); the ambient clock (`Date.now()`,
`new Date().toDateString()`, `new Date(ts).getHours()`) is passed explicitly
as `now : Int`, `today : String` and `getHours : Int → Int`; `Math.random`
driven choices (ids, ip/device/geo context, the ML noise term) are explicit
parameters.  JS truthiness tests on strings are `s ≠ ""` and on numbers
`n ≠ 0`, exactly where the source tests the raw value.  Fields of the store
that no embedded operation reads or writes (UI session, compliance reports,
threat intel, behavior profiles, the event log) are omitted; the omission is
noted at each definition.
-/

namespace BankingFraud

/-- User record, from `src/src/types` (`User`).  `createdAt` and `mfaEnabled`
are never read by the embedded operations and are omitted. -/
structure User where
  id : String
  username : String
  fullName : String
  email : String
  passwordHash : String
  isLocked : Bool
  lockoutUntil : Option Int
  failedLoginAttempts : Nat
  knownIPs : List String
  knownDevices : List String
  accountAge : Int
  deriving Repr, DecidableEq

/-- Account record, from `src/src/types` (`Account`).  The `type` field
(checking/savings) is never read and is omitted. -/
structure Account where
  id : String
  userId : String
  accountNumber : String
  balance : Int
  dailyTransferred : Int
  dailyTransferDate : String
  isFrozen : Bool
  deriving Repr, DecidableEq

/-- Transaction status, from `src/src/types` (`Transaction.status`). -/
inductive TxStatus where
  | completed
  | flagged
  | blocked
  | pendingReview
  deriving Repr, DecidableEq

/-- Transaction record, from `src/src/types` (`Transaction`).  The constant
`type: transfer` field and the MITRE technique string are omitted;
`mlPrediction` is a rational standing for the injected ML score. -/
structure Transaction where
  id : String
  fromAccountId : String
  toAccountId : String
  fromUserId : String
  toUserId : String
  amount : Int
  timestamp : Int
  status : TxStatus
  riskScore : Nat
  isFlagged : Bool
  fraudReasons : List String
  ip : String
  device : String
  geoLocation : String
  reviewStatus : Option String
  mlPrediction : Option ℚ
  mlFlagged : Option Bool
  attackScenario : Option String
  deriving Repr, DecidableEq

/-- Login log record, from `src/src/types` (`LoginLog`). -/
structure LoginLog where
  id : String
  userId : String
  username : String
  timestamp : Int
  ip : String
  device : String
  success : Bool
  geoLocation : String
  blocked : Bool
  reason : Option String
  deriving Repr, DecidableEq

/-- Alert severity, from `src/src/types` (`FraudAlert.severity`). -/
inductive Severity where
  | low
  | medium
  | high
  | critical
  deriving Repr, DecidableEq

/-- Fraud alert record, from `src/src/types` (`FraudAlert`).  The MITRE id
and tactic strings and `assignedTo` are presentation data and are omitted. -/
structure FraudAlert where
  id : String
  transactionId : Option String
  loginLogId : Option String
  severity : Severity
  description : String
  timestamp : Int
  deriving Repr, DecidableEq

/-- Security control category, from `src/src/types` (`SecurityControl.category`). -/
inductive ControlCategory where
  | rate_limiting
  | lockout
  | mfa
  | transaction_limit
  | ip_blacklist
  | step_up_auth
  deriving Repr, DecidableEq

/-- Security control, from `src/src/types` (`SecurityControl`).  The dynamic
`config: Record<string, number>` map is an association list; a missing key
reads as `undefined` in JS, which makes every numeric comparison on it false,
and the embedding matches on the lookup to reproduce that. -/
structure SecurityControl where
  id : String
  enabled : Bool
  category : ControlCategory
  config : List (String × Int)
  deriving Repr, DecidableEq

/-- Store state, from `src/src/store.ts` (`StoreState`), restricted to the
fields the embedded operations touch. -/
structure StoreState where
  users : List User
  accounts : List Account
  transactions : List Transaction
  loginLogs : List LoginLog
  fraudAlerts : List FraudAlert
  securityControls : List SecurityControl
  blacklistedIPs : List String
  deriving Repr, DecidableEq

/-- Lookup of a numeric config key, mirroring `ctrl.config.key as number`. -/
def SecurityControl.cfg (c : SecurityControl) (key : String) : Option Int :=
  (c.config.find? (fun kv => kv.1 == key)).map (fun kv => kv.2)

/-- First control of a category, mirroring
`controls.find(c => c.category === cat)` in `checkSecurityControls`. -/
def findControl (controls : List SecurityControl) (cat : ControlCategory) :
    Option SecurityControl :=
  controls.find? (fun c => c.category == cat)

/-- Result of `checkSecurityControls` (store.ts line 408). -/
structure GateResult where
  allowed : Bool
  reason : Option String
  requiresMFA : Bool
  deriving Repr, DecidableEq

/-- Action argument of `checkSecurityControls`. -/
inductive GateAction where
  | login
  | transaction
  deriving Repr, DecidableEq

/-- Params argument of `checkSecurityControls` (store.ts lines 402-407). -/
structure GateParams where
  userId : Option String
  ip : Option String
  amount : Option Int
  riskScore : Option Int
  deriving Repr, DecidableEq

/-- JS truthiness of an optional string: present and nonempty. -/
def strTruthy : Option String → Bool
  | none => false
  | some s => !(s == "")

/-- JS truthiness of an optional number: present and nonzero. -/
def intTruthy : Option Int → Bool
  | none => false
  | some n => !(n == 0)

/-- IP blacklist stage of the gate (store.ts lines 411-415): denies when the
control is enabled, the request carries an ip, and the ip is in
`state.blacklistedIPs`. -/
def blacklistDenies (state : StoreState) (params : GateParams) : Bool :=
  match findControl state.securityControls .ip_blacklist with
  | some c =>
      c.enabled && strTruthy params.ip &&
        state.blacklistedIPs.contains ((params.ip).getD "")
  | none => false

/-- Rate limiting stage (store.ts lines 418-427): counts login logs of the
user in the trailing 60000 ms against `maxAttemptsPerMinute`. -/
def rateLimitDenies (state : StoreState) (params : GateParams) (now : Int) : Bool :=
  match findControl state.securityControls .rate_limiting with
  | some c =>
      c.enabled && strTruthy params.userId &&
        (match c.cfg "maxAttemptsPerMinute" with
         | some maxA =>
             decide (maxA ≤
               ((state.loginLogs.filter (fun l =>
                   l.userId == (params.userId).getD "" &&
                   now - l.timestamp < 60000)).length : Int))
         | none => false)
  | none => false

/-- Lockout stage (store.ts lines 430-438): denies when the user is locked
and `now < lockoutUntil`; a null or zero `lockoutUntil` is JS-falsy and lets
the attempt through. -/
def lockoutDenies (state : StoreState) (params : GateParams) (now : Int) : Bool :=
  match findControl state.securityControls .lockout with
  | some c =>
      c.enabled && strTruthy params.userId &&
        (match state.users.find? (fun u => u.id == (params.userId).getD "") with
         | some u =>
             u.isLocked &&
               (match u.lockoutUntil with
                | some t => !(t == 0) && decide (now < t)
                | none => false)
         | none => false)
  | none => false

/-- Daily accumulator as the gate reads it (store.ts lines 445-447): the
first account of the user, counted only when its stored date is `today`,
otherwise zero; zero as well when the user has no account. -/
def dailyAccumRead (state : StoreState) (uid : String) (today : String) : Int :=
  match state.accounts.find? (fun a => a.userId == uid) with
  | some a => if a.dailyTransferDate == today then a.dailyTransferred else 0
  | none => 0

/-- Daily limit stage (store.ts lines 443-451).  Returns the configured limit
when it denies, so the caller can format the reason string. -/
def dailyLimitDeny (state : StoreState) (params : GateParams) (today : String) :
    Option Int :=
  match findControl state.securityControls .transaction_limit with
  | some c =>
      if c.enabled && intTruthy params.amount && strTruthy params.userId then
        match c.cfg "dailyLimit" with
        | some lim =>
            if dailyAccumRead state ((params.userId).getD "") today +
                (params.amount).getD 0 > lim then some lim else none
        | none => none
      else none
  | none => none

/-- Step-up stage (store.ts lines 454-460): triggers when enabled and the
amount exceeds `amountThreshold` or the risk score exceeds `riskThreshold`. -/
def stepUpTriggers (state : StoreState) (params : GateParams) : Bool :=
  match findControl state.securityControls .step_up_auth with
  | some c =>
      c.enabled &&
        ((match c.cfg "amountThreshold" with
          | some t => decide ((params.amount).getD 0 > t)
          | none => false) ||
         (match c.cfg "riskThreshold" with
          | some t => decide ((params.riskScore).getD 0 > t)
          | none => false))
  | none => false

/-- MFA stage (store.ts lines 463-466). -/
def mfaTriggers (state : StoreState) (params : GateParams) : Bool :=
  match findControl state.securityControls .mfa with
  | some c =>
      c.enabled &&
        (match c.cfg "riskThreshold" with
         | some t => decide ((params.riskScore).getD 0 > t)
         | none => false)
  | none => false

/-- `checkSecurityControls` (store.ts lines 399-470), with the ambient clock
passed as `now` and the calendar date as `today`.  The stages run in source
order and return at the first denial; step-up and MFA return allowed with
`requiresMFA`. -/
def checkSecurityControls (action : GateAction) (state : StoreState)
    (params : GateParams) (now : Int) (today : String) : GateResult :=
  if blacklistDenies state params then
    { allowed := false
      reason := some ("IP " ++ (params.ip).getD "" ++ " is blacklisted")
      requiresMFA := false }
  else
    match action with
    | .login =>
        if rateLimitDenies state params now then
          { allowed := false, reason := some "Rate limit exceeded", requiresMFA := false }
        else if lockoutDenies state params now then
          { allowed := false
            reason := some "Account locked due to too many failed attempts"
            requiresMFA := false }
        else
          { allowed := true, reason := none, requiresMFA := false }
    | .transaction =>
        match dailyLimitDeny state params today with
        | some lim =>
            { allowed := false
              reason := some ("Daily transfer limit (₱" ++ toString lim ++ ") exceeded")
              requiresMFA := false }
        | none =>
            if stepUpTriggers state params then
              { allowed := true
                reason := some "Step-up authentication required"
                requiresMFA := true }
            else if mfaTriggers state params then
              { allowed := true
                reason := some "MFA required - risk threshold exceeded"
                requiresMFA := true }
            else
              { allowed := true, reason := none, requiresMFA := false }

/-- Candidate transaction handed to the scorers (the `txPartial` object built
by `executeTransfer` and by the attack phases); every call site populates all
of these fields. -/
structure TxCandidate where
  fromUserId : String
  toUserId : String
  amount : Int
  timestamp : Int
  ip : String
  device : String
  geoLocation : String
  deriving Repr, DecidableEq

/-- Result of `evaluateTransactionRisk` (store.ts line 299). -/
structure RiskResult where
  riskScore : Nat
  reasons : List String
  isFlagged : Bool
  deriving Repr, DecidableEq

/-- Home geo whitelist hardcoded in rules 6 of the scorer (store.ts line 339). -/
def homeGeos : List String := ["Manila, PH", "Cebu, PH", "Davao, PH"]

/-- Same-sender transactions in the trailing 60000 ms window (store.ts
lines 310-312): a strict `<` on the elapsed milliseconds, so a tie at exactly
60000 ms is excluded. -/
def recentSameSender (transactions : List Transaction) (tx : TxCandidate) :
    List Transaction :=
  transactions.filter (fun t =>
    t.fromUserId == tx.fromUserId && tx.timestamp - t.timestamp < 60000)

/-- Rule 1 trigger (store.ts line 304): amount above 50000. -/
def largeAmountRule (tx : TxCandidate) : Bool :=
  decide (tx.amount > 50000)

/-- Rule 2 trigger (store.ts lines 310-313): at least two prior same-sender
transactions strictly inside the trailing 60000 ms. -/
def velocityRule (tx : TxCandidate) (state : StoreState) : Bool :=
  decide (2 ≤ (recentSameSender state.transactions tx).length)

/-- Rule 3 trigger (store.ts lines 319-320): sender found and the ip is
nonempty and not among the known ips; a missing sender skips the rule. -/
def unknownIPRule (tx : TxCandidate) (state : StoreState) : Bool :=
  match state.users.find? (fun u => u.id == tx.fromUserId) with
  | some u => tx.ip ≠ "" && !(u.knownIPs.contains tx.ip)
  | none => false

/-- Rule 4 trigger (store.ts line 326): as rule 3, for the device. -/
def unknownDeviceRule (tx : TxCandidate) (state : StoreState) : Bool :=
  match state.users.find? (fun u => u.id == tx.fromUserId) with
  | some u => tx.device ≠ "" && !(u.knownDevices.contains tx.device)
  | none => false

/-- Rule 5 trigger (store.ts lines 332-333): recipient found and younger than
7 days; a missing recipient skips the rule. -/
def newRecipientRule (tx : TxCandidate) (state : StoreState) : Bool :=
  match state.users.find? (fun u => u.id == tx.toUserId) with
  | some u => decide (u.accountAge < 7)
  | none => false

/-- Rule 6 trigger (store.ts line 339): nonempty geo outside the home set. -/
def foreignGeoRule (tx : TxCandidate) : Bool :=
  tx.geoLocation ≠ "" && !(homeGeos.contains tx.geoLocation)

/-- Rule 7 trigger (store.ts lines 345-346): local hour before 6 or from 23. -/
def offHoursRule (tx : TxCandidate) (getHours : Int → Int) : Bool :=
  decide (getHours tx.timestamp < 6) || decide (23 ≤ getHours tx.timestamp)

/-- Contribution of one rule to the scorer accumulators: its weight and its
reason string when triggered, nothing otherwise. -/
def ruleContrib (cond : Bool) (w : Nat) (r : String) : Nat × List String :=
  if cond then (w, [r]) else (0, [])

/-- Sum of the weights of the triggered rules, in rule order:
30, 25, 20, 15, 20, 15, 10. -/
def riskWeightTotal (tx : TxCandidate) (state : StoreState)
    (getHours : Int → Int) : Nat :=
  (if largeAmountRule tx then 30 else 0) +
    (if velocityRule tx state then 25 else 0) +
    (if unknownIPRule tx state then 20 else 0) +
    (if unknownDeviceRule tx state then 15 else 0) +
    (if newRecipientRule tx state then 20 else 0) +
    (if foreignGeoRule tx then 15 else 0) +
    (if offHoursRule tx getHours then 10 else 0)

/-- `evaluateTransactionRisk` (store.ts lines 296-353).  `getHours` stands for
`new Date(ts).getHours()` on the ambient local clock.  The source runs the
seven `if (trigger) { score += w; reasons.push(r) }` blocks in order on a
mutable pair of accumulators; that is rendered as the ordered sum of the
per-rule weight contributions and the ordered concatenation of the per-rule
reason contributions.  The score is capped at 100 and
`isFlagged = score >= 40`. -/
def evaluateTransactionRisk (tx : TxCandidate) (state : StoreState)
    (getHours : Int → Int) : RiskResult :=
  let c1 := ruleContrib (largeAmountRule tx) 30 "Large transaction (>₱50,000)"
  let c2 := ruleContrib (velocityRule tx state) 25
    ("Velocity: " ++ toString ((recentSameSender state.transactions tx).length + 1)
      ++ " transactions in 1 minute")
  let c3 := ruleContrib (unknownIPRule tx state) 20 ("Unknown IP: " ++ tx.ip)
  let c4 := ruleContrib (unknownDeviceRule tx state) 15
    ("Unknown device: " ++ tx.device)
  let c5 := ruleContrib (newRecipientRule tx state) 20
    "Transfer to new account (<7 days old)"
  let c6 := ruleContrib (foreignGeoRule tx) 15
    ("Foreign location: " ++ tx.geoLocation)
  let c7 := ruleContrib (offHoursRule tx getHours) 10 "Off-hours transaction"
  let score := min (c1.1 + c2.1 + c3.1 + c4.1 + c5.1 + c6.1 + c7.1) 100
  { riskScore := score
    reasons := c1.2 ++ c2.2 ++ c3.2 ++ c4.2 ++ c5.2 ++ c6.2 ++ c7.2
    isFlagged := decide (40 ≤ score) }

/-- Context triple an operation runs under (the `randomIP/randomDevice/
randomGeo` draws of the call sites, made explicit). -/
structure Ctx where
  ip : String
  device : String
  geo : String
  deriving Repr, DecidableEq

/-- Outcome of `executeTransfer` (App.tsx lines 946-1035), naming which exit
the handler took.  The step-up pause leaves the store untouched (the pending
transfer lives in component-local UI state). -/
inductive TransferOutcome where
  | invalidAccounts
  | frozen
  | insufficient
  | blockedDenied (reason : Option String)
  | stepUpPending
  | committed (flagged : Bool)
  deriving Repr, DecidableEq

/-- Severity ladder of the alert created on a flagged commit
(App.tsx line 1018). -/
def commitAlertSeverity (riskScore : Nat) : Severity :=
  if 80 ≤ riskScore then .critical
  else if 60 ≤ riskScore then .high
  else if 40 ≤ riskScore then .medium
  else .low

/-- Per-account update of the commit step (App.tsx lines 1008-1012): debit
and accumulator roll for the sender id, credit for the recipient id,
unchanged otherwise. -/
def commitAccountFn (fromId toId : String) (amount : Int) (today : String)
    (a : Account) : Account :=
  if a.id == fromId then
    { a with
      balance := a.balance - amount
      dailyTransferred :=
        (if a.dailyTransferDate == today then a.dailyTransferred else 0) + amount
      dailyTransferDate := today }
  else if a.id == toId then
    { a with balance := a.balance + amount }
  else a

/-- Account array update of the commit step (App.tsx lines 1006-1012): one
map over the array applying `commitAccountFn`. -/
def commitAccountsUpdate (accounts : List Account) (fromId toId : String)
    (amount : Int) (today : String) : List Account :=
  accounts.map (commitAccountFn fromId toId amount today)

/-- Gate params `executeTransfer` passes for a transaction check
(App.tsx lines 966-968). -/
def transferGateParams (fromUserId : String) (ip : String) (amount : Int)
    (riskScore : Nat) : GateParams :=
  { userId := some fromUserId, ip := some ip, amount := some amount
    riskScore := some (riskScore : Int) }

/-- The `txPartial` candidate built by `executeTransfer`
(App.tsx lines 957-961). -/
def transferCandidate (fromAcc toAcc : Account) (amount : Int) (ctx : Ctx)
    (now : Int) : TxCandidate :=
  { fromUserId := fromAcc.userId, toUserId := toAcc.userId
    amount := amount, timestamp := now
    ip := ctx.ip, device := ctx.device, geoLocation := ctx.geo }

/-- Risk result `executeTransfer` computes for a validated transfer
(App.tsx line 963). -/
def transferRisk (state : StoreState) (fromAcc toAcc : Account) (amount : Int)
    (ctx : Ctx) (now : Int) (getHours : Int → Int) : RiskResult :=
  evaluateTransactionRisk (transferCandidate fromAcc toAcc amount ctx now)
    state getHours

/-- Gate verdict `executeTransfer` obtains for a validated transfer
(App.tsx lines 966-968). -/
def transferGate (state : StoreState) (fromAcc toAcc : Account) (amount : Int)
    (ctx : Ctx) (now : Int) (today : String) (getHours : Int → Int) : GateResult :=
  checkSecurityControls .transaction state
    (transferGateParams fromAcc.userId ctx.ip amount
      (transferRisk state fromAcc toAcc amount ctx now getHours).riskScore)
    now today

/-- Transaction record of the gate-denied branch (App.tsx lines 971-978):
status blocked, `isFlagged` forced to true, the denial reason appended to the
fraud reasons, review fields null. -/
def blockedTransferTx (state : StoreState) (fromAcc toAcc : Account)
    (amount : Int) (ctx : Ctx) (now : Int) (today : String)
    (getHours : Int → Int) (txId : String) (mlScore : ℚ) : Transaction :=
  { id := txId, fromAccountId := fromAcc.id, toAccountId := toAcc.id
    fromUserId := fromAcc.userId, toUserId := toAcc.userId
    amount := amount, timestamp := now, status := .blocked
    riskScore := (transferRisk state fromAcc toAcc amount ctx now getHours).riskScore
    isFlagged := true
    fraudReasons :=
      (transferRisk state fromAcc toAcc amount ctx now getHours).reasons ++
        [((transferGate state fromAcc toAcc amount ctx now today getHours).reason).getD ""]
    ip := ctx.ip, device := ctx.device, geoLocation := ctx.geo
    reviewStatus := none, mlPrediction := some mlScore
    mlFlagged := some (decide (mlScore > 1/2)), attackScenario := none }

/-- Transaction record of the commit branch (App.tsx lines 993-1004). -/
def committedTransferTx (state : StoreState) (fromAcc toAcc : Account)
    (amount : Int) (ctx : Ctx) (now : Int) (getHours : Int → Int)
    (txId : String) (mlScore : ℚ) : Transaction :=
  { id := txId, fromAccountId := fromAcc.id, toAccountId := toAcc.id
    fromUserId := fromAcc.userId, toUserId := toAcc.userId
    amount := amount, timestamp := now
    status :=
      if (transferRisk state fromAcc toAcc amount ctx now getHours).isFlagged
      then .flagged else .completed
    riskScore := (transferRisk state fromAcc toAcc amount ctx now getHours).riskScore
    isFlagged := (transferRisk state fromAcc toAcc amount ctx now getHours).isFlagged
    fraudReasons := (transferRisk state fromAcc toAcc amount ctx now getHours).reasons
    ip := ctx.ip, device := ctx.device, geoLocation := ctx.geo
    reviewStatus :=
      if (transferRisk state fromAcc toAcc amount ctx now getHours).isFlagged
      then some "pending" else none
    mlPrediction := some mlScore
    mlFlagged := some (decide (mlScore > 1/2)), attackScenario := none }

/-- Store after the commit branch (App.tsx lines 1006-1024): balances and the
daily accumulator move, the transaction is appended, an alert is created iff
the risk flagged the transfer. -/
def commitResultState (state : StoreState) (fromAcc toAcc : Account)
    (amount : Int) (ctx : Ctx) (now : Int) (today : String)
    (getHours : Int → Int) (txId alertId : String) (mlScore : ℚ) : StoreState :=
  { state with
      accounts := commitAccountsUpdate state.accounts fromAcc.id toAcc.id amount today
      transactions := state.transactions ++
        [committedTransferTx state fromAcc toAcc amount ctx now getHours txId mlScore]
      fraudAlerts :=
        if (transferRisk state fromAcc toAcc amount ctx now getHours).isFlagged then
          state.fraudAlerts ++
            [{ id := alertId, transactionId := some txId, loginLogId := none
               severity := commitAlertSeverity
                 (transferRisk state fromAcc toAcc amount ctx now getHours).riskScore
               description := "Suspicious transfer: flagged by rule engine"
               timestamp := now }]
        else state.fraudAlerts }

/-- `executeTransfer` (App.tsx lines 946-1035).  `mlScore` is the injected
result of `mlPredict` (its noise term makes it a parameter), `mfaRequired`
the component flag that marks a step-up already confirmed, `txId`/`alertId`
the draws of `generateId`. -/
def executeTransfer (state : StoreState) (fromAccId toAccId : String)
    (amount : Int) (ctx : Ctx) (now : Int) (today : String)
    (getHours : Int → Int) (txId alertId : String) (mlScore : ℚ)
    (mfaRequired : Bool) : StoreState × TransferOutcome :=
  match state.accounts.find? (fun a => a.accountNumber == fromAccId),
        state.accounts.find? (fun a => a.accountNumber == toAccId) with
  | some fromAcc, some toAcc =>
      if fromAcc.isFrozen then (state, .frozen)
      else if fromAcc.balance < amount then (state, .insufficient)
      else
        let secCheck := transferGate state fromAcc toAcc amount ctx now today getHours
        if !secCheck.allowed then
          ({ state with transactions := state.transactions ++
              [blockedTransferTx state fromAcc toAcc amount ctx now today getHours
                txId mlScore] },
           .blockedDenied secCheck.reason)
        else if secCheck.requiresMFA && !mfaRequired then
          (state, .stepUpPending)
        else
          (commitResultState state fromAcc toAcc amount ctx now today getHours
             txId alertId mlScore,
           .committed (transferRisk state fromAcc toAcc amount ctx now getHours).isFlagged)
  | _, _ => (state, .invalidAccounts)

/-- `validateInput` (App.tsx lines 850-857): nonblank after trim and free of
the four injection characters (angle brackets and both quote kinds, given by
code point).  A string trims to empty exactly when every character is
whitespace, which is how the blank test is phrased here. -/
def validateInput (value : String) : Bool :=
  !(value.toList.all Char.isWhitespace) &&
    !(value.toList.contains (Char.ofNat 60)) &&
    !(value.toList.contains (Char.ofNat 62)) &&
    !(value.toList.contains (Char.ofNat 39)) &&
    !(value.toList.contains (Char.ofNat 34))

/-- Outcome of `handleTransfer` (App.tsx lines 1037-1044). -/
inductive HandleTransferOutcome where
  | badInput
  | invalidAmount
  | sameAccount
  | transferred (o : TransferOutcome)
  deriving Repr, DecidableEq

/-- `handleTransfer` (App.tsx lines 1037-1044): form validation in front of
`executeTransfer`.  The `parseFloat` of the amount field is abstracted to the
already-parsed `amount`, with the NaN case folded into `amount ≤ 0`. -/
def handleTransfer (state : StoreState) (fromAccount toAccount : String)
    (amount : Int) (ctx : Ctx) (now : Int) (today : String)
    (getHours : Int → Int) (txId alertId : String) (mlScore : ℚ)
    (mfaRequired : Bool) : StoreState × HandleTransferOutcome :=
  if !(validateInput fromAccount && validateInput toAccount) then (state, .badInput)
  else if amount ≤ 0 then (state, .invalidAmount)
  else if fromAccount == toAccount then (state, .sameAccount)
  else
    let r := executeTransfer state fromAccount toAccount amount ctx now today
      getHours txId alertId mlScore mfaRequired
    (r.1, .transferred r.2)

/-- Coercion of a JS number to a signed 32-bit integer (the effect of the
bitwise operators in `simpleHash`). -/
def toInt32 (n : Int) : Int :=
  (n + 2 ^ 31) % 2 ^ 32 - 2 ^ 31

/-- One iteration of the `simpleHash` loop (store.ts lines 6-9):
`hash = ((hash << 5) - hash) + char; hash = hash & hash`. -/
def hashStep (h : Int) (c : Nat) : Int :=
  toInt32 (toInt32 (h * 32) - h + (c : Int))

/-- Digits of `Number.prototype.toString(36)`. -/
def base36digits : List Char := "0123456789abcdefghijklmnopqrstuvwxyz".toList

/-- Base-36 rendering of a natural number, most significant digit first.
Structural recursion on a fuel argument (one division by 36 per step, so any
fuel of at least the number itself plus one suffices). -/
def natToBase36Go : Nat → Nat → List Char → List Char
  | 0, _, acc => acc
  | fuel + 1, n, acc =>
      let d := base36digits.getD (n % 36) (Char.ofNat 48)
      if n < 36 then d :: acc else natToBase36Go fuel (n / 36) (d :: acc)

/-- `n.toString(36)` for a nonnegative JS integer. -/
def natToBase36 (n : Nat) : String :=
  String.mk (natToBase36Go (n + 1) n [])

/-- `padStart(20, 0-char)` of the hash digits. -/
def padStartZeros (s : String) (n : Nat) : String :=
  String.mk (List.replicate (n - s.length) (Char.ofNat 48)) ++ s

/-- `simpleHash` (store.ts lines 4-12): the int32 rolling hash of the
password rendered in base 36 between fixed sentinels. -/
def simpleHash (password : String) : String :=
  let h := password.toList.foldl (fun h c => hashStep h c.toNat) 0
  "$2b$10$" ++ padStartZeros (natToBase36 h.natAbs) 20 ++ ".simulated"

/-- `verifyHash` (store.ts lines 14-16). -/
def verifyHash (password hash : String) : Bool :=
  simpleHash password == hash

/-- Outcome of `handleLogin` (App.tsx lines 884-944). -/
inductive LoginOutcome where
  | badInput
  | userNotFound
  | blockedDenied (reason : Option String)
  | success
  | failed
  deriving Repr, DecidableEq

/-- User array update of the failed-login branch (App.tsx lines 929-937):
the failure counter of the target user is incremented and, when it reaches
the configured lockout maximum (999 when the lockout control is disabled or
absent), the user is locked until a hardcoded `now + 900000` ms.  A missing
`maxFailedAttempts` key reads as NaN in JS and never locks. -/
def loginFailUpdate (controls : List SecurityControl) (targetId : String)
    (now : Int) (users : List User) : List User :=
  users.map (fun u =>
    if u.id == targetId then
      let attempts : Nat := u.failedLoginAttempts + 1
      let lockedNow : Bool :=
        match findControl controls .lockout with
        | some c =>
            if c.enabled then
              match c.cfg "maxFailedAttempts" with
              | some m => decide (m ≤ (attempts : Int))
              | none => false
            else decide (999 ≤ (attempts : Int))
        | none => decide (999 ≤ (attempts : Int))
      { u with
        failedLoginAttempts := attempts
        isLocked := lockedNow
        lockoutUntil := if lockedNow then some (now + 900000) else none }
    else u)

/-- `handleLogin` (App.tsx lines 884-944): gate pre-check, then password
verification; success resets the counter and clears the lock and raises an
alert on an unrecognized ip or device, failure runs `loginFailUpdate`. -/
def handleLogin (state : StoreState) (username password : String) (ctx : Ctx)
    (now : Int) (logId alertId : String) : StoreState × LoginOutcome :=
  if !(validateInput username && validateInput password) then (state, .badInput)
  else
    match state.users.find? (fun u => u.username == username) with
    | none => (state, .userNotFound)
    | some user =>
        let secCheck := checkSecurityControls .login state
          { userId := some user.id, ip := some ctx.ip, amount := none
            riskScore := none } now ""
        if !secCheck.allowed then
          let log : LoginLog :=
            { id := logId, userId := user.id, username := username
              timestamp := now, ip := ctx.ip, device := ctx.device
              success := false, geoLocation := ctx.geo, blocked := true
              reason := secCheck.reason }
          ({ state with loginLogs := state.loginLogs ++ [log] },
           .blockedDenied secCheck.reason)
        else
          let ok := verifyHash password user.passwordHash
          let log : LoginLog :=
            { id := logId, userId := user.id, username := username
              timestamp := now, ip := ctx.ip, device := ctx.device
              success := ok, geoLocation := ctx.geo, blocked := false
              reason := none }
          if ok then
            let isNewIP := !(user.knownIPs.contains ctx.ip)
            let isNewDevice := !(user.knownDevices.contains ctx.device)
            let users' := state.users.map (fun u =>
              if u.id == user.id then
                { u with failedLoginAttempts := 0, isLocked := false
                         lockoutUntil := none }
              else u)
            let alerts' :=
              if isNewIP || isNewDevice then
                state.fraudAlerts ++
                  [{ id := alertId, transactionId := none
                     loginLogId := some logId
                     severity := if isNewIP && isNewDevice then .high else .medium
                     description := "Suspicious login from unrecognized context"
                     timestamp := now }]
              else state.fraudAlerts
            ({ state with users := users'
                          loginLogs := state.loginLogs ++ [log]
                          fraudAlerts := alerts' }, .success)
          else
            ({ state with
                users := loginFailUpdate state.securityControls user.id now state.users
                loginLogs := state.loginLogs ++ [log] }, .failed)

/-- Phase 3 of the Account Takeover scenario
(AttackSimulation.tsx lines 62-83): a 45000 transfer from user_001 to the
mule, scored and gated by the shared functions, then committed by hand —
balances move unless blocked, the daily accumulator is never touched,
`isFlagged` is forced to true and an attack-pattern reason is appended.
The step-up flag of the gate is ignored. -/
def runAccountTakeoverPhase3 (state : StoreState) (now : Int) (today : String)
    (getHours : Int → Int) (txId alertId : String) (mlScore : ℚ) : StoreState :=
  match state.accounts.find? (fun a => a.userId == "user_001"),
        state.accounts.find? (fun a => a.userId == "user_mule") with
  | some fromAcc, some muleAcc =>
      let amount : Int := 45000
      let txPartial : TxCandidate :=
        { fromUserId := fromAcc.userId, toUserId := muleAcc.userId
          amount := amount, timestamp := now, ip := "203.0.113.42"
          device := "Tor Browser/Unknown", geoLocation := "Moscow, RU" }
      let risk := evaluateTransactionRisk txPartial state getHours
      let secCheck := checkSecurityControls .transaction state
        (transferGateParams fromAcc.userId "203.0.113.42" amount risk.riskScore)
        now today
      let txStatus : TxStatus :=
        if !secCheck.allowed then .blocked
        else if risk.isFlagged then .flagged else .completed
      let tx : Transaction :=
        { id := txId, fromAccountId := fromAcc.id, toAccountId := muleAcc.id
          fromUserId := fromAcc.userId, toUserId := muleAcc.userId
          amount := amount, timestamp := now, status := txStatus
          riskScore := risk.riskScore, isFlagged := true
          fraudReasons := risk.reasons ++ ["ATO attack pattern"]
          ip := "203.0.113.42", device := "Tor Browser/Unknown"
          geoLocation := "Moscow, RU", reviewStatus := some "pending"
          mlPrediction := some mlScore
          mlFlagged := some (decide (mlScore > 1/2))
          attackScenario := some "Account Takeover" }
      let accounts :=
        if txStatus ≠ .blocked then
          state.accounts.map (fun a =>
            if a.id == fromAcc.id then { a with balance := a.balance - amount }
            else if a.id == muleAcc.id then { a with balance := a.balance + amount }
            else a)
        else state.accounts
      let alert : FraudAlert :=
        { id := alertId, transactionId := some txId, loginLogId := none
          severity := .critical, description := "ATO: transfer to mule"
          timestamp := now }
      { state with
          accounts := accounts
          transactions := state.transactions ++ [tx]
          fraudAlerts := state.fraudAlerts ++ [alert] }
  | _, _ => state

/-- Phase 3 of the Phishing scenario (AttackSimulation.tsx lines 111-128):
an 80000 transfer from user_002 to the mule, scored and gated by the shared
functions, recorded as blocked or flagged — and in either case NO account
balance is mutated. -/
def runPhishingPhase3 (state : StoreState) (now : Int) (today : String)
    (getHours : Int → Int) (txId alertId : String) (mlScore : ℚ) : StoreState :=
  match state.accounts.find? (fun a => a.userId == "user_002"),
        state.accounts.find? (fun a => a.userId == "user_mule") with
  | some fromAcc, some muleAcc =>
      let amount : Int := 80000
      let txPartial : TxCandidate :=
        { fromUserId := fromAcc.userId, toUserId := muleAcc.userId
          amount := amount, timestamp := now, ip := "91.132.147.5"
          device := "Unknown/Linux", geoLocation := "Beijing, CN" }
      let risk := evaluateTransactionRisk txPartial state getHours
      let secCheck := checkSecurityControls .transaction state
        (transferGateParams fromAcc.userId "91.132.147.5" amount risk.riskScore)
        now today
      let txStatus : TxStatus := if !secCheck.allowed then .blocked else .flagged
      let tx : Transaction :=
        { id := txId, fromAccountId := fromAcc.id, toAccountId := muleAcc.id
          fromUserId := fromAcc.userId, toUserId := muleAcc.userId
          amount := amount, timestamp := now, status := txStatus
          riskScore := min (risk.riskScore + 20) 100, isFlagged := true
          fraudReasons := risk.reasons ++ ["Phishing attack", "Session hijacking"]
          ip := "91.132.147.5", device := "Unknown/Linux"
          geoLocation := "Beijing, CN", reviewStatus := some "pending"
          mlPrediction := some mlScore, mlFlagged := some true
          attackScenario := some "Phishing Fraud" }
      let alert : FraudAlert :=
        { id := alertId, transactionId := some txId, loginLogId := none
          severity := .critical, description := "Phishing fraud via hijacked session"
          timestamp := now }
      { state with
          transactions := state.transactions ++ [tx]
          fraudAlerts := state.fraudAlerts ++ [alert] }
  | _, _ => state

/-- Seed users of `createInitialState` (store.ts lines 47-76), with the
fields the embedded operations read. -/
def seedUsers : List User :=
  [{ id := "user_001", username := "jdelacruz", fullName := "Juan Dela Cruz"
     email := "juan@email.com", passwordHash := simpleHash "password123"
     isLocked := false, lockoutUntil := none, failedLoginAttempts := 0
     knownIPs := ["192.168.1.100", "10.0.0.55"]
     knownDevices := ["Chrome/Windows", "Safari/iOS"], accountAge := 90 },
   { id := "user_002", username := "mreyes", fullName := "Maria Reyes"
     email := "maria@email.com", passwordHash := simpleHash "securepass"
     isLocked := false, lockoutUntil := none, failedLoginAttempts := 0
     knownIPs := ["192.168.1.100", "172.16.0.1"]
     knownDevices := ["Firefox/MacOS", "Chrome/Android"], accountAge := 180 },
   { id := "user_003", username := "rsantos", fullName := "Ricardo Santos"
     email := "rico@email.com", passwordHash := simpleHash "mypassword"
     isLocked := false, lockoutUntil := none, failedLoginAttempts := 0
     knownIPs := ["10.0.0.55"], knownDevices := ["Chrome/Windows"]
     accountAge := 30 },
   { id := "user_mule", username := "mule_account"
     fullName := "Mule Account (Suspicious)", email := "mule@temp.com"
     passwordHash := simpleHash "mule123"
     isLocked := false, lockoutUntil := none, failedLoginAttempts := 0
     knownIPs := ["203.0.113.42"], knownDevices := ["Tor Browser/Unknown"]
     accountAge := 2 }]

/-- Seed accounts of `createInitialState` (store.ts lines 78-83). -/
def seedAccounts : List Account :=
  [{ id := "acc_001", userId := "user_001", accountNumber := "9001234567"
     balance := 150000, dailyTransferred := 0, dailyTransferDate := ""
     isFrozen := false },
   { id := "acc_002", userId := "user_002", accountNumber := "9009876543"
     balance := 320000, dailyTransferred := 0, dailyTransferDate := ""
     isFrozen := false },
   { id := "acc_003", userId := "user_003", accountNumber := "9005551234"
     balance := 75000, dailyTransferred := 0, dailyTransferDate := ""
     isFrozen := false },
   { id := "acc_mule", userId := "user_mule", accountNumber := "9006660001"
     balance := 500, dailyTransferred := 0, dailyTransferDate := ""
     isFrozen := false }]

/-- Default security controls (store.ts lines 85-92).  The ip_blacklist
control keeps its list in `StoreState.blacklistedIPs`, not in its config. -/
def defaultControls : List SecurityControl :=
  [{ id := "ctrl_1", enabled := true, category := .rate_limiting
     config := [("maxAttemptsPerMinute", 5)] },
   { id := "ctrl_2", enabled := true, category := .lockout
     config := [("maxFailedAttempts", 5), ("lockoutDurationMinutes", 15)] },
   { id := "ctrl_3", enabled := true, category := .mfa
     config := [("riskThreshold", 60)] },
   { id := "ctrl_4", enabled := true, category := .transaction_limit
     config := [("dailyLimit", 100000)] },
   { id := "ctrl_5", enabled := true, category := .ip_blacklist
     config := [] },
   { id := "ctrl_6", enabled := true, category := .step_up_auth
     config := [("amountThreshold", 50000), ("riskThreshold", 70)] }]

/-- `createInitialState` (store.ts lines 208-231), restricted to the embedded
fields. -/
def seedState : StoreState :=
  { users := seedUsers, accounts := seedAccounts, transactions := []
    loginLogs := [], fraudAlerts := [], securityControls := defaultControls
    blacklistedIPs := ["185.220.101.1", "91.132.147.5"] }

/-- Daytime local clock used for concrete witnesses: every timestamp reads as
10 in the morning. -/
def tenOclock : Int → Int := fun _ => 10

/-- Balance of the account bearing a given account number, read the way the
handlers look accounts up. -/
def balanceOf (accs : List Account) (accNo : String) : Option Int :=
  (accs.find? (fun a => a.accountNumber == accNo)).map (fun a => a.balance)

/-- Sum of every account balance in the ledger. -/
def sumBalances (accs : List Account) : Int :=
  (accs.map (fun a => a.balance)).sum

/-- The commit update never touches the account number. -/
theorem accountNumber_commitAccountFn (fid tid : String) (amt : Int)
    (today : String) (a : Account) :
    (commitAccountFn fid tid amt today a).accountNumber = a.accountNumber := by
  unfold commitAccountFn
  by_cases h1 : a.id == fid <;> by_cases h2 : a.id == tid <;> simp [h1, h2]

/-- Lookups by account number commute with the commit update. -/
theorem find?_commitAccountsUpdate (accs : List Account) (fid tid : String)
    (amt : Int) (today : String) (accNo : String) :
    (commitAccountsUpdate accs fid tid amt today).find?
        (fun a => a.accountNumber == accNo) =
      (accs.find? (fun a => a.accountNumber == accNo)).map
        (commitAccountFn fid tid amt today) := by
  unfold commitAccountsUpdate
  rw [List.find?_map]
  have hp : ((fun a : Account => a.accountNumber == accNo) ∘
      commitAccountFn fid tid amt today) =
      (fun a : Account => a.accountNumber == accNo) := by
    funext a
    simp [Function.comp, accountNumber_commitAccountFn]
  rw [hp]

/-- Per-element balance delta of the commit update, summed over the ledger:
every account bearing the sender id is debited, every account bearing the
recipient id (distinct from the sender id) is credited. -/
theorem sumBalances_commitAccountsUpdate (accs : List Account) (fid tid : String)
    (amt : Int) (today : String) (h : fid ≠ tid) :
    sumBalances (commitAccountsUpdate accs fid tid amt today) =
      sumBalances accs
        - amt * (accs.countP (fun a => a.id == fid) : Int)
        + amt * (accs.countP (fun a => a.id == tid) : Int) := by
  induction accs with
  | nil => simp [sumBalances, commitAccountsUpdate]
  | cons a l ih =>
      simp only [commitAccountsUpdate, List.map_cons, sumBalances, List.sum_cons,
        List.countP_cons] at *
      rw [List.map_map] at ih
      by_cases h1 : a.id = fid
      · have h2 : a.id ≠ tid := by rw [h1]; exact h
        simp [commitAccountFn, h1, h2, h]
        rw [ih]
        ring
      · by_cases h2 : a.id = tid
        · simp [commitAccountFn, h1, h2, Ne.symm h]
          rw [ih]
          ring
        · simp [commitAccountFn, h1, h2]
          rw [ih]
          ring

/-- In a ledger whose account ids are pairwise distinct, a member id occurs
exactly once. -/
theorem countP_id_eq_one (accs : List Account)
    (hno : (accs.map Account.id).Nodup) (a : Account) (ha : a ∈ accs) :
    accs.countP (fun x => x.id == a.id) = 1 := by
  have h1 : accs.countP (fun x => x.id == a.id) = (accs.map Account.id).count a.id := by
    rw [List.count, List.countP_map]
    rfl
  rw [h1]
  exact List.count_eq_one_of_mem hno (List.mem_map_of_mem _ ha)

/-- Two members of an id-nodup ledger with distinct account numbers have
distinct ids. -/
theorem id_ne_of_accountNumber_ne (accs : List Account)
    (hno : (accs.map Account.id).Nodup) (a b : Account) (ha : a ∈ accs)
    (hb : b ∈ accs) (hab : a.accountNumber ≠ b.accountNumber) : a.id ≠ b.id := by
  intro h
  exact hab (congrArg Account.accountNumber
    (List.inj_on_of_nodup_map hno ha hb h))

/-- C2: a transfer that passes validation (both accounts exist, source not
frozen, balance sufficient) but is denied by a security control still creates
a Transaction with status blocked whose reasons are the computed fraud
reasons followed by the denial reason, and no account is mutated. -/
theorem c2_blocked_records_without_mutation
    (state : StoreState) (fromAccId toAccId : String) (amount : Int) (ctx : Ctx)
    (now : Int) (today : String) (getHours : Int → Int) (txId alertId : String)
    (mlScore : ℚ) (mfaRequired : Bool) (fromAcc toAcc : Account)
    (hf : state.accounts.find? (fun a => a.accountNumber == fromAccId) = some fromAcc)
    (ht : state.accounts.find? (fun a => a.accountNumber == toAccId) = some toAcc)
    (hfrozen : fromAcc.isFrozen = false)
    (hbal : ¬ fromAcc.balance < amount)
    (hdeny : (transferGate state fromAcc toAcc amount ctx now today getHours).allowed
      = false) :
    executeTransfer state fromAccId toAccId amount ctx now today getHours
        txId alertId mlScore mfaRequired =
      ({ state with
          transactions := state.transactions ++
            [blockedTransferTx state fromAcc toAcc amount ctx now today getHours
              txId mlScore] },
       .blockedDenied
         (transferGate state fromAcc toAcc amount ctx now today getHours).reason)
    ∧ (blockedTransferTx state fromAcc toAcc amount ctx now today getHours
        txId mlScore).status = .blocked
    ∧ (blockedTransferTx state fromAcc toAcc amount ctx now today getHours
        txId mlScore).fraudReasons =
        (transferRisk state fromAcc toAcc amount ctx now getHours).reasons ++
          [((transferGate state fromAcc toAcc amount ctx now today getHours).reason).getD ""]
    ∧ (executeTransfer state fromAccId toAccId amount ctx now today getHours
        txId alertId mlScore mfaRequired).1.accounts = state.accounts := by
  have hmain : executeTransfer state fromAccId toAccId amount ctx now today getHours
      txId alertId mlScore mfaRequired =
      ({ state with
          transactions := state.transactions ++
            [blockedTransferTx state fromAcc toAcc amount ctx now today getHours
              txId mlScore] },
       .blockedDenied
         (transferGate state fromAcc toAcc amount ctx now today getHours).reason) := by
    unfold executeTransfer
    rw [hf, ht]
    simp [hfrozen, hbal, hdeny]
  refine ⟨hmain, rfl, rfl, ?_⟩
  rw [hmain]

/-- Witness for C2: on the seed store, a 100 transfer from a blacklisted IP
is denied by the gate, the store keeps its account array and the outcome
carries the blacklist reason. -/
theorem c2_witness :
    (executeTransfer seedState "9001234567" "9009876543" 100
        ⟨"185.220.101.1", "Chrome/Windows", "Manila, PH"⟩ 0 "D1" tenOclock
        "tx1" "al1" 0 false).1.accounts = seedState.accounts ∧
    (executeTransfer seedState "9001234567" "9009876543" 100
        ⟨"185.220.101.1", "Chrome/Windows", "Manila, PH"⟩ 0 "D1" tenOclock
        "tx1" "al1" 0 false).2 =
      .blockedDenied (some "IP 185.220.101.1 is blacklisted") := by
  have h := c2_blocked_records_without_mutation seedState "9001234567" "9009876543"
    100 ⟨"185.220.101.1", "Chrome/Windows", "Manila, PH"⟩ 0 "D1" tenOclock
    "tx1" "al1" 0 false
    { id := "acc_001", userId := "user_001", accountNumber := "9001234567"
      balance := 150000, dailyTransferred := 0, dailyTransferDate := ""
      isFrozen := false }
    { id := "acc_002", userId := "user_002", accountNumber := "9009876543"
      balance := 320000, dailyTransferred := 0, dailyTransferDate := ""
      isFrozen := false }
    (by decide) (by decide) (by decide) (by decide) (by decide)
  exact ⟨h.2.2.2, by rw [h.1]; decide⟩

/-- C7: every transfer attempt that fails validation — malformed field,
non-positive amount, same-account transfer, unknown account number, frozen
source, insufficient balance — terminates with the matching error outcome and
returns the store exactly as it was: no transaction, balance, accumulator or
alert changes. -/
theorem c7_validation_failures_mutate_nothing
    (state : StoreState) (fromAccId toAccId : String) (amount : Int) (ctx : Ctx)
    (now : Int) (today : String) (getHours : Int → Int) (txId alertId : String)
    (mlScore : ℚ) (mfaRequired : Bool) :
    ((validateInput fromAccId && validateInput toAccId) = false →
      handleTransfer state fromAccId toAccId amount ctx now today getHours
        txId alertId mlScore mfaRequired = (state, .badInput))
    ∧ ((validateInput fromAccId && validateInput toAccId) = true → amount ≤ 0 →
      handleTransfer state fromAccId toAccId amount ctx now today getHours
        txId alertId mlScore mfaRequired = (state, .invalidAmount))
    ∧ ((validateInput fromAccId && validateInput toAccId) = true → 0 < amount →
      fromAccId = toAccId →
      handleTransfer state fromAccId toAccId amount ctx now today getHours
        txId alertId mlScore mfaRequired = (state, .sameAccount))
    ∧ (state.accounts.find? (fun a => a.accountNumber == fromAccId) = none →
      executeTransfer state fromAccId toAccId amount ctx now today getHours
        txId alertId mlScore mfaRequired = (state, .invalidAccounts))
    ∧ (state.accounts.find? (fun a => a.accountNumber == toAccId) = none →
      executeTransfer state fromAccId toAccId amount ctx now today getHours
        txId alertId mlScore mfaRequired = (state, .invalidAccounts))
    ∧ (∀ fromAcc toAcc,
      state.accounts.find? (fun a => a.accountNumber == fromAccId) = some fromAcc →
      state.accounts.find? (fun a => a.accountNumber == toAccId) = some toAcc →
      fromAcc.isFrozen = true →
      executeTransfer state fromAccId toAccId amount ctx now today getHours
        txId alertId mlScore mfaRequired = (state, .frozen))
    ∧ (∀ fromAcc toAcc,
      state.accounts.find? (fun a => a.accountNumber == fromAccId) = some fromAcc →
      state.accounts.find? (fun a => a.accountNumber == toAccId) = some toAcc →
      fromAcc.isFrozen = false → fromAcc.balance < amount →
      executeTransfer state fromAccId toAccId amount ctx now today getHours
        txId alertId mlScore mfaRequired = (state, .insufficient)) := by
  refine ⟨?_, ?_, ?_, ?_, ?_, ?_, ?_⟩
  · intro h
    simp [handleTransfer, h]
  · intro h h0
    simp [handleTransfer, h, h0]
  · intro h h0 hsame
    have hn : ¬ amount ≤ 0 := by omega
    rw [Bool.and_eq_true] at h
    simp [handleTransfer, h.1, h.2, hsame, hn]
  · intro h
    unfold executeTransfer
    rw [h]
  · intro h
    unfold executeTransfer
    rw [h]
    cases hfa : state.accounts.find? (fun a => a.accountNumber == fromAccId) <;> rfl
  · intro fromAcc toAcc hf ht hz
    unfold executeTransfer
    rw [hf, ht]
    simp [hz]
  · intro fromAcc toAcc hf ht hz hb
    unfold executeTransfer
    rw [hf, ht]
    simp [hz, hb]

/-- Witness for C7: concrete instances of the same-account rejection and of
the insufficient-balance rejection on the seed store, both leaving the store
untouched. -/
theorem c7_witness :
    handleTransfer seedState "9001234567" "9001234567" 50 ⟨"a", "b", "c"⟩ 0 "D1"
      tenOclock "tx1" "al1" 0 false = (seedState, .sameAccount) ∧
    executeTransfer seedState "9001234567" "9009876543" 99999999 ⟨"a", "b", "c"⟩
      0 "D1" tenOclock "tx1" "al1" 0 false = (seedState, .insufficient) := by
  refine ⟨?_, ?_⟩
  · exact (c7_validation_failures_mutate_nothing seedState "9001234567" "9001234567"
      50 ⟨"a", "b", "c"⟩ 0 "D1" tenOclock "tx1" "al1" 0 false).2.2.1
      (by decide) (by decide) rfl
  · exact (c7_validation_failures_mutate_nothing seedState "9001234567" "9009876543"
      99999999 ⟨"a", "b", "c"⟩ 0 "D1" tenOclock "tx1" "al1" 0 false).2.2.2.2.2.2
      { id := "acc_001", userId := "user_001", accountNumber := "9001234567"
        balance := 150000, dailyTransferred := 0, dailyTransferDate := ""
        isFrozen := false }
      { id := "acc_002", userId := "user_002", accountNumber := "9009876543"
        balance := 320000, dailyTransferred := 0, dailyTransferDate := ""
        isFrozen := false }
      (by decide) (by decide) (by decide) (by decide)

/-- Ledger with one established sender (known ip ip1, known device dev1) and
one 10-day-old recipient, used for the concrete scorer checks. -/
def benignLedger : StoreState :=
  { users :=
      [{ id := "u1", username := "alice", fullName := "Alice A"
         email := "a@x.com", passwordHash := "h1", isLocked := false
         lockoutUntil := none, failedLoginAttempts := 0
         knownIPs := ["ip1"], knownDevices := ["dev1"], accountAge := 90 },
       { id := "u2", username := "bob", fullName := "Bob B"
         email := "b@x.com", passwordHash := "h2", isLocked := false
         lockoutUntil := none, failedLoginAttempts := 0
         knownIPs := ["ip2"], knownDevices := ["dev2"], accountAge := 10 }]
    accounts := [], transactions := [], loginLogs := [], fraudAlerts := []
    securityControls := [], blacklistedIPs := [] }

/-- The 60000 transfer of the spec example: known ip and device, home geo,
recipient aged 10 days. -/
def benignCandidate : TxCandidate :=
  { fromUserId := "u1", toUserId := "u2", amount := 60000, timestamp := 0
    ip := "ip1", device := "dev1", geoLocation := "Manila, PH" }

/-- Minimal ledger transaction used to populate velocity scenarios. -/
def priorTx (ts : Int) : Transaction :=
  { id := "t0", fromAccountId := "a1", toAccountId := "a2", fromUserId := "u1"
    toUserId := "u2", amount := 10, timestamp := ts, status := .completed
    riskScore := 0, isFlagged := false, fraudReasons := [], ip := "ip1"
    device := "dev1", geoLocation := "Manila, PH", reviewStatus := none
    mlPrediction := none, mlFlagged := none, attackScenario := none }

/-- Ledger holding two prior transfers of u1 at timestamp 0. -/
def twoPriorLedger : StoreState :=
  { benignLedger with transactions := [priorTx 0, priorTx 0] }

/-- C3: the risk score is the weight sum of the triggered rules capped at
100, flagged exactly at 40 and above; velocity triggers exactly when at
least two prior same-sender transactions lie strictly less than 60000 ms
back, a missing sender or recipient merely skips its rules; and the spec
example (60000 to a 10-day-old account, known ip and device, home geo,
business hours, quiet ledger) scores exactly 30 and is not flagged, while a
third transfer exactly 60000 ms after two others does not trigger velocity
but one at 59999 ms does. -/
theorem c3_risk_scorer_formula (tx : TxCandidate) (state : StoreState)
    (getHours : Int → Int) :
    (evaluateTransactionRisk tx state getHours).riskScore =
      min (riskWeightTotal tx state getHours) 100
    ∧ ((evaluateTransactionRisk tx state getHours).isFlagged = true ↔
        40 ≤ (evaluateTransactionRisk tx state getHours).riskScore)
    ∧ (velocityRule tx state = true ↔
        2 ≤ state.transactions.countP (fun t =>
          t.fromUserId == tx.fromUserId &&
            decide (tx.timestamp - t.timestamp < 60000)))
    ∧ evaluateTransactionRisk benignCandidate benignLedger tenOclock =
        { riskScore := 30, reasons := ["Large transaction (>₱50,000)"]
          isFlagged := false }
    ∧ velocityRule { benignCandidate with timestamp := 60000 } twoPriorLedger
        = false
    ∧ velocityRule { benignCandidate with timestamp := 59999 } twoPriorLedger
        = true := by
  have hfst : ∀ (c : Bool) (w : Nat) (r : String),
      (ruleContrib c w r).1 = if c then w else 0 := by
    intro c w r
    cases c <;> rfl
  refine ⟨?_, ?_, ?_, by decide, by decide, by decide⟩
  · simp only [evaluateTransactionRisk, riskWeightTotal, hfst]
  · simp only [evaluateTransactionRisk]
    simp [decide_eq_true_iff]
  · unfold velocityRule recentSameSender
    rw [List.countP_eq_length_filter]
    simp

/-- A found control inherits the all-disabled hypothesis. -/
theorem findControl_disabled {controls : List SecurityControl}
    {cat : ControlCategory} {c : SecurityControl}
    (hAll : ∀ c ∈ controls, c.enabled = false)
    (h : findControl controls cat = some c) : c.enabled = false :=
  hAll c (List.mem_of_find?_eq_some h)

/-- With every control disabled the blacklist stage passes. -/
theorem blacklistDenies_disabled (state : StoreState) (params : GateParams)
    (hAll : ∀ c ∈ state.securityControls, c.enabled = false) :
    blacklistDenies state params = false := by
  unfold blacklistDenies
  cases h : findControl state.securityControls .ip_blacklist with
  | none => rfl
  | some c => simp [findControl_disabled hAll h]

/-- With every control disabled the rate limit stage passes. -/
theorem rateLimitDenies_disabled (state : StoreState) (params : GateParams)
    (now : Int) (hAll : ∀ c ∈ state.securityControls, c.enabled = false) :
    rateLimitDenies state params now = false := by
  unfold rateLimitDenies
  cases h : findControl state.securityControls .rate_limiting with
  | none => rfl
  | some c => simp [findControl_disabled hAll h]

/-- With every control disabled the lockout stage passes. -/
theorem lockoutDenies_disabled (state : StoreState) (params : GateParams)
    (now : Int) (hAll : ∀ c ∈ state.securityControls, c.enabled = false) :
    lockoutDenies state params now = false := by
  unfold lockoutDenies
  cases h : findControl state.securityControls .lockout with
  | none => rfl
  | some c => simp [findControl_disabled hAll h]

/-- With every control disabled the daily limit stage passes. -/
theorem dailyLimitDeny_disabled (state : StoreState) (params : GateParams)
    (today : String) (hAll : ∀ c ∈ state.securityControls, c.enabled = false) :
    dailyLimitDeny state params today = none := by
  unfold dailyLimitDeny
  cases h : findControl state.securityControls .transaction_limit with
  | none => rfl
  | some c => simp [findControl_disabled hAll h]

/-- With every control disabled the step-up stage does not trigger. -/
theorem stepUpTriggers_disabled (state : StoreState) (params : GateParams)
    (hAll : ∀ c ∈ state.securityControls, c.enabled = false) :
    stepUpTriggers state params = false := by
  unfold stepUpTriggers
  cases h : findControl state.securityControls .step_up_auth with
  | none => rfl
  | some c => simp [findControl_disabled hAll h]

/-- With every control disabled the MFA stage does not trigger. -/
theorem mfaTriggers_disabled (state : StoreState) (params : GateParams)
    (hAll : ∀ c ∈ state.securityControls, c.enabled = false) :
    mfaTriggers state params = false := by
  unfold mfaTriggers
  cases h : findControl state.securityControls .mfa with
  | none => rfl
  | some c => simp [findControl_disabled hAll h]

/-- C4: the gate runs its stages in the fixed source order — blacklist, then
rate limit and lockout for logins, then daily limit, step-up and MFA for
transactions — returning at the first denial; a triggered step-up returns
allowed-with-step-up with the MFA control never consulted (the state, and so
the MFA control configuration, is universally quantified in that conjunct);
with nothing denying and nothing triggering the verdict is allowed with a
null reason; and with every control disabled the gate allows every input
with no step-up. -/
theorem c4_gate_order_and_disabled (state : StoreState) (params : GateParams)
    (now : Int) (today : String) :
    ((∀ c ∈ state.securityControls, c.enabled = false) →
      checkSecurityControls .login state params now today =
        { allowed := true, reason := none, requiresMFA := false } ∧
      checkSecurityControls .transaction state params now today =
        { allowed := true, reason := none, requiresMFA := false })
    ∧ (∀ action, blacklistDenies state params = true →
      checkSecurityControls action state params now today =
        { allowed := false
          reason := some ("IP " ++ (params.ip).getD "" ++ " is blacklisted")
          requiresMFA := false })
    ∧ (blacklistDenies state params = false →
      rateLimitDenies state params now = true →
      checkSecurityControls .login state params now today =
        { allowed := false, reason := some "Rate limit exceeded"
          requiresMFA := false })
    ∧ (blacklistDenies state params = false →
      rateLimitDenies state params now = false →
      lockoutDenies state params now = true →
      checkSecurityControls .login state params now today =
        { allowed := false
          reason := some "Account locked due to too many failed attempts"
          requiresMFA := false })
    ∧ (blacklistDenies state params = false →
      rateLimitDenies state params now = false →
      lockoutDenies state params now = false →
      checkSecurityControls .login state params now today =
        { allowed := true, reason := none, requiresMFA := false })
    ∧ (∀ lim, blacklistDenies state params = false →
      dailyLimitDeny state params today = some lim →
      checkSecurityControls .transaction state params now today =
        { allowed := false
          reason := some ("Daily transfer limit (₱" ++ toString lim ++ ") exceeded")
          requiresMFA := false })
    ∧ (blacklistDenies state params = false →
      dailyLimitDeny state params today = none →
      stepUpTriggers state params = true →
      checkSecurityControls .transaction state params now today =
        { allowed := true, reason := some "Step-up authentication required"
          requiresMFA := true })
    ∧ (blacklistDenies state params = false →
      dailyLimitDeny state params today = none →
      stepUpTriggers state params = false →
      mfaTriggers state params = true →
      checkSecurityControls .transaction state params now today =
        { allowed := true, reason := some "MFA required - risk threshold exceeded"
          requiresMFA := true })
    ∧ (blacklistDenies state params = false →
      dailyLimitDeny state params today = none →
      stepUpTriggers state params = false →
      mfaTriggers state params = false →
      checkSecurityControls .transaction state params now today =
        { allowed := true, reason := none, requiresMFA := false }) := by
  refine ⟨?_, ?_, ?_, ?_, ?_, ?_, ?_, ?_, ?_⟩
  · intro hAll
    constructor <;>
      simp [checkSecurityControls, blacklistDenies_disabled state params hAll,
        rateLimitDenies_disabled state params now hAll,
        lockoutDenies_disabled state params now hAll,
        dailyLimitDeny_disabled state params today hAll,
        stepUpTriggers_disabled state params hAll,
        mfaTriggers_disabled state params hAll]
  · intro action hbl
    cases action <;> simp [checkSecurityControls, hbl]
  · intro hbl hrate
    simp [checkSecurityControls, hbl, hrate]
  · intro hbl hrate hlock
    simp [checkSecurityControls, hbl, hrate, hlock]
  · intro hbl hrate hlock
    simp [checkSecurityControls, hbl, hrate, hlock]
  · intro lim hbl hdaily
    simp [checkSecurityControls, hbl, hdaily]
  · intro hbl hdaily hstep
    simp [checkSecurityControls, hbl, hdaily, hstep]
  · intro hbl hdaily hstep hmfa
    simp [checkSecurityControls, hbl, hdaily, hstep, hmfa]
  · intro hbl hdaily hstep hmfa
    simp [checkSecurityControls, hbl, hdaily, hstep, hmfa]

/-- Store whose six controls are all toggled off. -/
def disabledControlsState : StoreState :=
  { seedState with
      securityControls := defaultControls.map (fun c => { c with enabled := false }) }

/-- Witness for C4: with every control disabled even a blacklisted-ip,
over-limit, maximum-risk transaction and a locked-user login are allowed with
no step-up; and on the default controls a 60000 transaction triggers step-up
with the step-up reason. -/
theorem c4_witness :
    checkSecurityControls .transaction disabledControlsState
      { userId := some "user_001", ip := some "185.220.101.1"
        amount := some 999999999, riskScore := some 100 } 0 "D1" =
      { allowed := true, reason := none, requiresMFA := false } ∧
    checkSecurityControls .login disabledControlsState
      { userId := some "user_001", ip := some "185.220.101.1"
        amount := none, riskScore := none } 0 "D1" =
      { allowed := true, reason := none, requiresMFA := false } ∧
    checkSecurityControls .transaction seedState
      { userId := some "user_001", ip := some "10.0.0.55"
        amount := some 60000, riskScore := some 0 } 0 "D1" =
      { allowed := true, reason := some "Step-up authentication required"
        requiresMFA := true } := by
  refine ⟨?_, ?_, ?_⟩
  · exact ((c4_gate_order_and_disabled disabledControlsState
      { userId := some "user_001", ip := some "185.220.101.1"
        amount := some 999999999, riskScore := some 100 } 0 "D1").1
      (by decide)).2
  · exact ((c4_gate_order_and_disabled disabledControlsState
      { userId := some "user_001", ip := some "185.220.101.1"
        amount := none, riskScore := none } 0 "D1").1 (by decide)).1
  · exact (c4_gate_order_and_disabled seedState
      { userId := some "user_001", ip := some "10.0.0.55"
        amount := some 60000, riskScore := some 0 } 0 "D1").2.2.2.2.2.2.1
      (by decide) (by decide) (by decide)

/-- Ledger for the concrete daily-limit scenario: one funded account, one
recipient account, and only the transaction-limit control (cap 100000)
enabled. -/
def dailyCapState : StoreState :=
  { users := [], accounts :=
      [{ id := "a1", userId := "u1", accountNumber := "A1", balance := 200000
         dailyTransferred := 0, dailyTransferDate := "", isFrozen := false },
       { id := "a2", userId := "u2", accountNumber := "B1", balance := 1000
         dailyTransferred := 0, dailyTransferDate := "", isFrozen := false }]
    transactions := [], loginLogs := [], fraudAlerts := []
    securityControls :=
      [{ id := "ctrl_4", enabled := true, category := .transaction_limit
         config := [("dailyLimit", 100000)] }]
    blacklistedIPs := [] }

/-- Context of the daily-limit scenario transfers: home geo, daytime. -/
def dailyCapCtx : Ctx := { ip := "ip1", device := "dev1", geo := "Manila, PH" }

/-- First 60000 transfer on day D1. -/
def dailyCapRun1 : StoreState × TransferOutcome :=
  executeTransfer dailyCapState "A1" "B1" 60000 dailyCapCtx 0 "D1" tenOclock
    "t1" "al1" 0 false

/-- Second 60000 transfer on the same day D1, from the resulting store. -/
def dailyCapRun2 : StoreState × TransferOutcome :=
  executeTransfer dailyCapRun1.1 "A1" "B1" 60000 dailyCapCtx 1000 "D1" tenOclock
    "t2" "al2" 0 false

/-- A 60000 transfer the next calendar day D2, from the same store. -/
def dailyCapRun3 : StoreState × TransferOutcome :=
  executeTransfer dailyCapRun1.1 "A1" "B1" 60000 dailyCapCtx 90000000 "D2"
    tenOclock "t3" "al3" 0 false

/-- C5: with the transaction-limit control enabled a transfer is denied
exactly when the daily accumulator read for today plus the amount strictly
exceeds the configured cap, with the daily-limit reason; the accumulator
counts only amounts committed under the current date string and reads as
zero under any other.  Concretely, with a 100000 cap, the first same-day
60000 transfer commits (accumulator 0+60000), the second is denied
(60000+60000 > 100000) without touching the accounts, and on the next
calendar day the accumulator reads zero again and a 60000 transfer commits. -/
theorem c5_daily_limit_accumulator (state : StoreState) (params : GateParams)
    (now : Int) (today : String) (c : SecurityControl) (lim amt : Int)
    (uid : String)
    (hc : findControl state.securityControls .transaction_limit = some c)
    (hen : c.enabled = true)
    (hlim : c.cfg "dailyLimit" = some lim)
    (hamt : params.amount = some amt)
    (hpos : 0 < amt)
    (huid : params.userId = some uid)
    (hu : uid ≠ "")
    (hbl : blacklistDenies state params = false) :
    ((checkSecurityControls .transaction state params now today).allowed = false ↔
      lim < dailyAccumRead state uid today + amt)
    ∧ (lim < dailyAccumRead state uid today + amt →
      (checkSecurityControls .transaction state params now today).reason =
        some ("Daily transfer limit (₱" ++ toString lim ++ ") exceeded"))
    ∧ dailyCapRun1.2 = .committed false
    ∧ balanceOf dailyCapRun1.1.accounts "A1" = some 140000
    ∧ dailyAccumRead dailyCapRun1.1 "u1" "D1" = 60000
    ∧ dailyCapRun2.2 =
        .blockedDenied (some "Daily transfer limit (₱100000) exceeded")
    ∧ dailyCapRun2.1.accounts = dailyCapRun1.1.accounts
    ∧ dailyAccumRead dailyCapRun1.1 "u1" "D2" = 0
    ∧ dailyCapRun3.2 = .committed false
    ∧ balanceOf dailyCapRun3.1.accounts "A1" = some 80000 := by
  have h0 : (amt == 0) = false := by
    simp only [beq_eq_false_iff_ne, ne_eq]
    omega
  have hdeq : dailyLimitDeny state params today =
      (if lim < dailyAccumRead state uid today + amt then some lim else none) := by
    unfold dailyLimitDeny
    rw [hc]
    simp [hen, hamt, huid, intTruthy, strTruthy, hu, h0, hlim]
  refine ⟨?_, ?_, by decide, by decide, by decide, by decide, by decide,
    by decide, by decide, by decide⟩
  · by_cases h : lim < dailyAccumRead state uid today + amt
    · simp [checkSecurityControls, hbl, hdeq, h]
    · simp only [checkSecurityControls, hbl, Bool.false_eq_true, if_false,
        hdeq, if_neg h]
      cases hs : stepUpTriggers state params <;>
        cases hm : mfaTriggers state params <;> simp [hs, hm, h]
  · intro h
    simp [checkSecurityControls, hbl, hdeq, h]

/-- Witness for C5: the general denial criterion applied to the second
same-day transfer of the concrete scenario — the gate denies 60000 more
after 60000 already accumulated under a 100000 cap. -/
theorem c5_witness :
    (checkSecurityControls .transaction dailyCapRun1.1
      { userId := some "u1", ip := some "ip1", amount := some 60000
        riskScore := some 30 } 1000 "D1").allowed = false := by
  have h := c5_daily_limit_accumulator dailyCapRun1.1
    { userId := some "u1", ip := some "ip1", amount := some 60000
      riskScore := some 30 } 1000 "D1"
    { id := "ctrl_4", enabled := true, category := .transaction_limit
      config := [("dailyLimit", 100000)] } 100000 60000 "u1"
    (by decide) (by decide) (by decide) (by decide) (by decide) (by decide)
    (by decide) (by decide)
  exact h.1.mpr (by decide)

/-- Seed store with the ip-blacklist control toggled off (reachable through
the ToggleControl operation), so the phishing transfer is not blocked. -/
def blacklistOffState : StoreState :=
  { seedState with
      securityControls := defaultControls.map (fun c =>
        if c.category == ControlCategory.ip_blacklist then
          { c with enabled := false }
        else c) }

/-- Store after phase 3 of the phishing scenario on `blacklistOffState`. -/
def phishResult : StoreState :=
  runPhishingPhase3 blacklistOffState 0 "D1" tenOclock "tx1" "al1" 0

/-- Counterexample to C1 as stated: phase 3 of the phishing scenario records
a non-blocked (status flagged, so committed rather than blocked or paused)
transfer of 80000, yet the sender balance stays 320000 instead of
320000 - 80000 — the recorded transfer moves no money at all (so the ledger
sum is unchanged for the wrong reason). -/
theorem c1_counterexample :
    phishResult.transactions.map (fun t => (t.status, t.amount)) =
      [(TxStatus.flagged, 80000)]
    ∧ balanceOf phishResult.accounts "9009876543" = some 320000
    ∧ balanceOf blacklistOffState.accounts "9009876543" = some 320000
    ∧ balanceOf phishResult.accounts "9006660001" = some 500
    ∧ (320000 : Int) ≠ 320000 - 80000 := by
  refine ⟨by decide, by decide, by decide, by decide, by decide⟩

/-- C1 amended: every transfer committed by the Transfer pipeline
(`executeTransfer`), between two distinct account numbers of a ledger whose
account ids are pairwise distinct, debits the sender by exactly the amount,
credits the recipient by exactly the amount, and leaves the sum of all
balances unchanged; the phishing and SIM-swap scenario phases instead record
their non-blocked transfers without mutating any balance. -/
theorem c1_amended_commit_conservation (state : StoreState)
    (fromAccId toAccId : String) (amount : Int) (ctx : Ctx) (now : Int)
    (today : String) (getHours : Int → Int) (txId alertId : String)
    (mlScore : ℚ) (mfaRequired : Bool) (s' : StoreState) (f : Bool)
    (fromAcc toAcc : Account)
    (hno : (state.accounts.map Account.id).Nodup)
    (hf : state.accounts.find? (fun a => a.accountNumber == fromAccId) = some fromAcc)
    (ht : state.accounts.find? (fun a => a.accountNumber == toAccId) = some toAcc)
    (hneq : fromAccId ≠ toAccId)
    (hrun : executeTransfer state fromAccId toAccId amount ctx now today getHours
      txId alertId mlScore mfaRequired = (s', .committed f)) :
    balanceOf s'.accounts fromAccId = some (fromAcc.balance - amount)
    ∧ balanceOf s'.accounts toAccId = some (toAcc.balance + amount)
    ∧ sumBalances s'.accounts = sumBalances state.accounts := by
  have hfno : fromAcc.accountNumber = fromAccId := by
    have := List.find?_some hf
    simpa using this
  have htno : toAcc.accountNumber = toAccId := by
    have := List.find?_some ht
    simpa using this
  have hacneq : fromAcc.accountNumber ≠ toAcc.accountNumber := by
    rw [hfno, htno]; exact hneq
  have hid : fromAcc.id ≠ toAcc.id :=
    id_ne_of_accountNumber_ne state.accounts hno fromAcc toAcc
      (List.mem_of_find?_eq_some hf) (List.mem_of_find?_eq_some ht) hacneq
  unfold executeTransfer at hrun
  rw [hf, ht] at hrun
  by_cases hz : fromAcc.isFrozen
  · simp [hz] at hrun
  · by_cases hb : fromAcc.balance < amount
    · simp [hz, hb] at hrun
    · cases hal : (transferGate state fromAcc toAcc amount ctx now today getHours).allowed
      · simp [hz, hb, hal] at hrun
      · cases hstep : (transferGate state fromAcc toAcc amount ctx now today
            getHours).requiresMFA && !mfaRequired
        · simp only [hz, hb, hal, hstep, if_neg, if_false, Bool.not_true,
            Bool.false_eq_true, if_true] at hrun
          have hs : commitResultState state fromAcc toAcc amount ctx now today
              getHours txId alertId mlScore = s' := by
            have := congrArg Prod.fst hrun
            simpa using this
          subst hs
          have haccs : (commitResultState state fromAcc toAcc amount ctx now today
              getHours txId alertId mlScore).accounts =
              commitAccountsUpdate state.accounts fromAcc.id toAcc.id amount today := by
            simp [commitResultState]
          refine ⟨?_, ?_, ?_⟩
          · rw [haccs]
            unfold balanceOf
            rw [find?_commitAccountsUpdate, hf]
            simp [commitAccountFn]
          · rw [haccs]
            unfold balanceOf
            rw [find?_commitAccountsUpdate, ht]
            have : (toAcc.id == fromAcc.id) = false := by
              simp [Ne.symm hid]
            simp [commitAccountFn, this]
          · rw [haccs]
            rw [sumBalances_commitAccountsUpdate state.accounts fromAcc.id
              toAcc.id amount today hid]
            rw [countP_id_eq_one state.accounts hno fromAcc
              (List.mem_of_find?_eq_some hf)]
            rw [countP_id_eq_one state.accounts hno toAcc
              (List.mem_of_find?_eq_some ht)]
            ring
        · simp [hz, hb, hal, hstep] at hrun

/-- Witness for C1 amended: the committed 60000 transfer of the daily-limit
scenario debits A1 to 140000, credits B1 to 61000 and keeps the ledger sum
at 201000. -/
theorem c1_witness :
    balanceOf dailyCapRun1.1.accounts "A1" = some 140000
    ∧ balanceOf dailyCapRun1.1.accounts "B1" = some 61000
    ∧ sumBalances dailyCapRun1.1.accounts = sumBalances dailyCapState.accounts := by
  have h := c1_amended_commit_conservation dailyCapState "A1" "B1" 60000
    dailyCapCtx 0 "D1" tenOclock "t1" "al1" 0 false dailyCapRun1.1 false
    { id := "a1", userId := "u1", accountNumber := "A1", balance := 200000
      dailyTransferred := 0, dailyTransferDate := "", isFrozen := false }
    { id := "a2", userId := "u2", accountNumber := "B1", balance := 1000
      dailyTransferred := 0, dailyTransferDate := "", isFrozen := false }
    (by decide) (by decide) (by decide) (by decide)
    (by
      have h2 : dailyCapRun1.2 = TransferOutcome.committed false := by decide
      rw [← h2]
      rfl)
  exact ⟨h.1, h.2.1, h.2.2⟩

/-- Store with a single user and only the lockout control, configured to
lock after 1 failed attempt for 30 minutes. -/
def lockCfgState : StoreState :=
  { users :=
      [{ id := "u1", username := "alice", fullName := "Alice A"
         email := "a@x.com", passwordHash := simpleHash "pw"
         isLocked := false, lockoutUntil := none, failedLoginAttempts := 0
         knownIPs := ["ip1"], knownDevices := ["dev1"], accountAge := 30 }]
    accounts := [], transactions := [], loginLogs := [], fraudAlerts := []
    securityControls :=
      [{ id := "ctrl_2", enabled := true, category := .lockout
         config := [("maxFailedAttempts", 1), ("lockoutDurationMinutes", 30)] }]
    blacklistedIPs := [] }

/-- Context of the failing login. -/
def lockCtx : Ctx := { ip := "ip1", device := "dev1", geo := "Manila, PH" }

/-- Store after one failed login against `lockCfgState` at time 0. -/
def lockedState : StoreState :=
  (handleLogin lockCfgState "alice" "bad" lockCtx 0 "lg1" "al1").1

/-- Counterexample to C6 as stated: with `lockoutDurationMinutes` configured
to 30, one failed login (lockout max 1) locks the user until the hardcoded
`now + 900000` ms — 15 minutes — and not until `now + 30 * 60000`; the code
never reads the configured duration. -/
theorem c6_counterexample :
    lockedState.users.map (fun u =>
        (u.failedLoginAttempts, u.isLocked, u.lockoutUntil)) =
      [(1, true, some 900000)]
    ∧ (handleLogin lockCfgState "alice" "bad" lockCtx 0 "lg1" "al1").2 = .failed
    ∧ (900000 : Int) ≠ 0 + 30 * 60000 := by
  exact ⟨by decide, by decide, by decide⟩

/-- C6 amended: each failed login increments the failure counter, and when
the counter reaches the configured lockout maximum the user is locked with
`lockoutUntil = now + 900000` ms — a fixed 15 minutes, regardless of the
configured `lockoutDurationMinutes`; a further attempt while locked with
`now < lockoutUntil` is denied with the lockout reason whenever no earlier
enabled control (IP blacklist, rate limit) denies first, and is never
recorded as an invalid-password failure. -/
theorem c6_amended_lockout (state : StoreState) (username password : String)
    (ctx : Ctx) (now : Int) (logId alertId : String) (user : User)
    (hfind : state.users.find? (fun u => u.username == username) = some user)
    (hval : (validateInput username && validateInput password) = true)
    (hallow : (checkSecurityControls .login state
      { userId := some user.id, ip := some ctx.ip, amount := none
        riskScore := none } now "").allowed = true)
    (hbad : verifyHash password user.passwordHash = false) :
    handleLogin state username password ctx now logId alertId =
      ({ state with
          users := loginFailUpdate state.securityControls user.id now state.users
          loginLogs := state.loginLogs ++
            [{ id := logId, userId := user.id, username := username
               timestamp := now, ip := ctx.ip, device := ctx.device
               success := false, geoLocation := ctx.geo, blocked := false
               reason := none }] }, .failed)
    ∧ (∀ (controls : List SecurityControl) (targetId : String) (now2 : Int)
        (users : List User) (u : User) (c : SecurityControl) (m : Int),
        findControl controls .lockout = some c → c.enabled = true →
        c.cfg "maxFailedAttempts" = some m →
        users.find? (fun x => x.id == targetId) = some u →
        (loginFailUpdate controls targetId now2 users).find?
            (fun x => x.id == targetId) =
          some { u with
            failedLoginAttempts := u.failedLoginAttempts + 1
            isLocked := decide (m ≤ ((u.failedLoginAttempts + 1 : Nat) : Int))
            lockoutUntil :=
              if m ≤ ((u.failedLoginAttempts + 1 : Nat) : Int) then
                some (now2 + 900000)
              else none })
    ∧ (∀ (state2 : StoreState) (params : GateParams) (now2 : Int)
        (today : String) (uid : String) (u : User) (c : SecurityControl) (t : Int),
        findControl state2.securityControls .lockout = some c →
        c.enabled = true →
        params.userId = some uid → uid ≠ "" →
        state2.users.find? (fun x => x.id == uid) = some u →
        u.isLocked = true → u.lockoutUntil = some t → t ≠ 0 → now2 < t →
        blacklistDenies state2 params = false →
        rateLimitDenies state2 params now2 = false →
        checkSecurityControls .login state2 params now2 today =
          { allowed := false
            reason := some "Account locked due to too many failed attempts"
            requiresMFA := false }) := by
  refine ⟨?_, ?_, ?_⟩
  · rw [Bool.and_eq_true] at hval
    simp [handleLogin, hfind, hval.1, hval.2, hallow, hbad]
  · intro controls targetId now2 users u c m hc hen hm hu
    have hpid : (u.id == targetId) = true := by
      simpa using List.find?_some hu
    unfold loginFailUpdate
    rw [List.find?_map]
    have hp : ((fun x : User => x.id == targetId) ∘ (fun u : User =>
        if u.id == targetId then
          { u with
            failedLoginAttempts := u.failedLoginAttempts + 1
            isLocked :=
              match findControl controls .lockout with
              | some c =>
                  if c.enabled then
                    match c.cfg "maxFailedAttempts" with
                    | some m => decide (m ≤ ((u.failedLoginAttempts + 1 : Nat) : Int))
                    | none => false
                  else decide (999 ≤ ((u.failedLoginAttempts + 1 : Nat) : Int))
              | none => decide (999 ≤ ((u.failedLoginAttempts + 1 : Nat) : Int))
            lockoutUntil :=
              if (match findControl controls .lockout with
                  | some c =>
                      if c.enabled then
                        match c.cfg "maxFailedAttempts" with
                        | some m => decide (m ≤ ((u.failedLoginAttempts + 1 : Nat) : Int))
                        | none => false
                      else decide (999 ≤ ((u.failedLoginAttempts + 1 : Nat) : Int))
                  | none => decide (999 ≤ ((u.failedLoginAttempts + 1 : Nat) : Int)))
              then some (now2 + 900000) else none }
        else u)) = (fun x : User => x.id == targetId) := by
      funext a
      by_cases ha : a.id == targetId <;> simp [Function.comp, ha]
    rw [hp, hu]
    simp [hpid, hc, hen, hm]
    intro hne
    exact absurd (by simpa using hpid) hne
  · intro state2 params now2 today uid u c t hc hen huid hune hfu hl hlt ht0 hnow
      hbl hrate
    have hlock : lockoutDenies state2 params now2 = true := by
      unfold lockoutDenies
      rw [hc]
      simp [hen, huid, strTruthy, hune, hfu, hl, hlt, ht0, hnow]
    simp [checkSecurityControls, hbl, hrate, hlock]

/-- Witness for C6 amended: the concrete one-attempt lockout — the failed
login locks u1 until 900000, and a later attempt at time 1000 against the
locked store is gate-denied with the lockout reason. -/
theorem c6_witness :
    (handleLogin lockCfgState "alice" "bad" lockCtx 0 "lg1" "al1").2 = .failed
    ∧ (loginFailUpdate lockCfgState.securityControls "u1" 0
        lockCfgState.users).find? (fun x => x.id == "u1") =
      some { id := "u1", username := "alice", fullName := "Alice A"
             email := "a@x.com", passwordHash := simpleHash "pw"
             isLocked := true, lockoutUntil := some 900000
             failedLoginAttempts := 1, knownIPs := ["ip1"]
             knownDevices := ["dev1"], accountAge := 30 }
    ∧ checkSecurityControls .login lockedState
        { userId := some "u1", ip := some "ip1", amount := none
          riskScore := none } 1000 "" =
      { allowed := false
        reason := some "Account locked due to too many failed attempts"
        requiresMFA := false } := by
  have h := c6_amended_lockout lockCfgState "alice" "bad" lockCtx 0 "lg1" "al1"
    { id := "u1", username := "alice", fullName := "Alice A"
      email := "a@x.com", passwordHash := simpleHash "pw"
      isLocked := false, lockoutUntil := none, failedLoginAttempts := 0
      knownIPs := ["ip1"], knownDevices := ["dev1"], accountAge := 30 }
    (by decide) (by decide) (by decide) (by decide)
  refine ⟨by rw [h.1], ?_, ?_⟩
  · have hb := h.2.1 lockCfgState.securityControls "u1" 0 lockCfgState.users
      { id := "u1", username := "alice", fullName := "Alice A"
        email := "a@x.com", passwordHash := simpleHash "pw"
        isLocked := false, lockoutUntil := none, failedLoginAttempts := 0
        knownIPs := ["ip1"], knownDevices := ["dev1"], accountAge := 30 }
      { id := "ctrl_2", enabled := true, category := .lockout
        config := [("maxFailedAttempts", 1), ("lockoutDurationMinutes", 30)] }
      1 (by decide) (by decide) (by decide) (by decide)
    rw [hb]
    decide
  · exact h.2.2 lockedState
      { userId := some "u1", ip := some "ip1", amount := none
        riskScore := none } 1000 "" "u1"
      { id := "u1", username := "alice", fullName := "Alice A"
        email := "a@x.com", passwordHash := simpleHash "pw"
        isLocked := true, lockoutUntil := some 900000
        failedLoginAttempts := 1, knownIPs := ["ip1"]
        knownDevices := ["dev1"], accountAge := 30 }
      { id := "ctrl_2", enabled := true, category := .lockout
        config := [("maxFailedAttempts", 1), ("lockoutDurationMinutes", 30)] }
      900000 (by decide) (by decide) (by decide) (by decide) (by decide)
      (by decide) (by decide) (by decide) (by decide) (by decide) (by decide)

/-- Attacker context of the Account Takeover transfer phase. -/
def atoCtx : Ctx :=
  { ip := "203.0.113.42", device := "Tor Browser/Unknown", geo := "Moscow, RU" }

/-- Store after phase 3 of the Account Takeover scenario on the seed. -/
def atoResult : StoreState :=
  runAccountTakeoverPhase3 seedState 0 "D1" tenOclock "tx1" "al1" 0

set_option maxRecDepth 20000 in
/-- Counterexample to C8 as stated: on the seed store the Account Takeover
phase-3 transfer commits a flagged 45000 transaction and debits the victim
to 105000, while the Transfer operation of the pipeline, applied to the very
same request (same accounts, amount and attacker context), pauses for
step-up and leaves the store completely unchanged — the scenario-issued
transfer does not equal the pipeline result. -/
theorem c8_counterexample :
    atoResult.transactions.map (fun t => (t.status, t.amount, t.isFlagged)) =
      [(TxStatus.flagged, 45000, true)]
    ∧ balanceOf atoResult.accounts "9001234567" = some 105000
    ∧ executeTransfer seedState "9001234567" "9006660001" 45000 atoCtx 0 "D1"
        tenOclock "tx1" "al1" 0 false = (seedState, .stepUpPending) := by
  exact ⟨by decide, by decide, by decide⟩

/-- C8 amended: the scenario transfer phases reuse the shared scoring and
gating functions with the attacker-chosen context — the Account Takeover
phase-3 record carries exactly the `evaluateTransactionRisk` score and
reasons for the attacker candidate and is blocked exactly when
`checkSecurityControls` denies — but the commit is hand-rolled: `isFlagged`
is forced to true, an attack-pattern reason is appended, the gate step-up
requirement is ignored, and when blocked the balances stay untouched. -/
theorem c8_amended_scenario_uses_pipeline_scoring (state : StoreState)
    (now : Int) (today : String) (getHours : Int → Int) (txId alertId : String)
    (mlScore : ℚ) (fromAcc muleAcc : Account)
    (hf : state.accounts.find? (fun a => a.userId == "user_001") = some fromAcc)
    (hm : state.accounts.find? (fun a => a.userId == "user_mule") = some muleAcc) :
    (runAccountTakeoverPhase3 state now today getHours txId alertId mlScore).transactions
      = state.transactions ++
        [{ id := txId, fromAccountId := fromAcc.id, toAccountId := muleAcc.id
           fromUserId := fromAcc.userId, toUserId := muleAcc.userId
           amount := 45000, timestamp := now
           status :=
             if !(checkSecurityControls .transaction state
                 (transferGateParams fromAcc.userId "203.0.113.42" 45000
                   (evaluateTransactionRisk
                     (transferCandidate fromAcc muleAcc 45000 atoCtx now)
                     state getHours).riskScore) now today).allowed then
               .blocked
             else if (evaluateTransactionRisk
                 (transferCandidate fromAcc muleAcc 45000 atoCtx now)
                 state getHours).isFlagged then .flagged
             else .completed
           riskScore :=
             (evaluateTransactionRisk
               (transferCandidate fromAcc muleAcc 45000 atoCtx now)
               state getHours).riskScore
           isFlagged := true
           fraudReasons :=
             (evaluateTransactionRisk
               (transferCandidate fromAcc muleAcc 45000 atoCtx now)
               state getHours).reasons ++ ["ATO attack pattern"]
           ip := "203.0.113.42", device := "Tor Browser/Unknown"
           geoLocation := "Moscow, RU", reviewStatus := some "pending"
           mlPrediction := some mlScore
           mlFlagged := some (decide (mlScore > 1/2))
           attackScenario := some "Account Takeover" }]
    ∧ ((checkSecurityControls .transaction state
        (transferGateParams fromAcc.userId "203.0.113.42" 45000
          (evaluateTransactionRisk
            (transferCandidate fromAcc muleAcc 45000 atoCtx now)
            state getHours).riskScore) now today).allowed = false →
      (runAccountTakeoverPhase3 state now today getHours txId alertId
        mlScore).accounts = state.accounts) := by
  constructor
  · unfold runAccountTakeoverPhase3
    rw [hf, hm]
    simp only [transferCandidate, atoCtx]
  · intro hdeny
    simp only [transferCandidate, atoCtx] at hdeny
    unfold runAccountTakeoverPhase3
    rw [hf, hm]
    simp [hdeny]

/-- Witness for C8 amended: on the seed store the Account Takeover phase
appends exactly one transaction. -/
theorem c8_witness :
    atoResult.transactions.length = seedState.transactions.length + 1 := by
  have h := c8_amended_scenario_uses_pipeline_scoring seedState 0 "D1" tenOclock
    "tx1" "al1" 0
    { id := "acc_001", userId := "user_001", accountNumber := "9001234567"
      balance := 150000, dailyTransferred := 0, dailyTransferDate := ""
      isFrozen := false }
    { id := "acc_mule", userId := "user_mule", accountNumber := "9006660001"
      balance := 500, dailyTransferred := 0, dailyTransferDate := ""
      isFrozen := false }
    (by decide) (by decide)
  unfold atoResult
  rw [h.1]
  simp

/-- Store after the low-risk blacklisted transfer used for the concrete C10
check: risk 20 (unknown IP only), blocked by the blacklist control. -/
def lowRiskBlockedState : StoreState :=
  (executeTransfer seedState "9001234567" "9009876543" 100
    { ip := "185.220.101.1", device := "Chrome/Windows", geo := "Manila, PH" }
    0 "D1" tenOclock "tx1" "al1" 0 false).1

/-- C10: every Transaction recorded with status blocked carries
`isFlagged = true` — the pipeline blocked branch hard-codes it, and the
attack phases force it for every status — even when the rule risk score is
below the 40-point flag threshold, as the concrete blacklist denial at risk
20 shows; so flagged on stored transactions does not coincide with a risk
score of at least 40. -/
theorem c10_blocked_always_flagged :
    (∀ (state : StoreState) (fromAccId toAccId : String) (amount : Int)
      (ctx : Ctx) (now : Int) (today : String) (getHours : Int → Int)
      (txId alertId : String) (mlScore : ℚ) (mfaRequired : Bool)
      (s' : StoreState) (reason : Option String),
      executeTransfer state fromAccId toAccId amount ctx now today getHours
        txId alertId mlScore mfaRequired = (s', .blockedDenied reason) →
      (s'.transactions.getLast?).map (fun t => (t.status, t.isFlagged)) =
        some (.blocked, true))
    ∧ (∀ (state : StoreState) (now : Int) (today : String)
      (getHours : Int → Int) (txId alertId : String) (mlScore : ℚ)
      (fromAcc muleAcc : Account),
      state.accounts.find? (fun a => a.userId == "user_001") = some fromAcc →
      state.accounts.find? (fun a => a.userId == "user_mule") = some muleAcc →
      ((runAccountTakeoverPhase3 state now today getHours txId alertId
        mlScore).transactions.getLast?).map (fun t => t.isFlagged) = some true)
    ∧ (∀ (state : StoreState) (now : Int) (today : String)
      (getHours : Int → Int) (txId alertId : String) (mlScore : ℚ)
      (fromAcc muleAcc : Account),
      state.accounts.find? (fun a => a.userId == "user_002") = some fromAcc →
      state.accounts.find? (fun a => a.userId == "user_mule") = some muleAcc →
      ((runPhishingPhase3 state now today getHours txId alertId
        mlScore).transactions.getLast?).map (fun t => t.isFlagged) = some true)
    ∧ lowRiskBlockedState.transactions.map (fun t =>
        (t.status, t.riskScore, t.isFlagged)) = [(TxStatus.blocked, 20, true)]
    ∧ (20 : Nat) < 40 := by
  refine ⟨?_, ?_, ?_, by decide, by decide⟩
  · intro state fromAccId toAccId amount ctx now today getHours txId alertId
      mlScore mfaRequired s' reason h
    unfold executeTransfer at h
    cases hfa : state.accounts.find? (fun a => a.accountNumber == fromAccId) with
    | none => rw [hfa] at h; simp at h
    | some fromAcc =>
      cases hft : state.accounts.find? (fun a => a.accountNumber == toAccId) with
      | none => rw [hfa, hft] at h; simp at h
      | some toAcc =>
        rw [hfa, hft] at h
        by_cases hz : fromAcc.isFrozen
        · simp [hz] at h
        · by_cases hb : fromAcc.balance < amount
          · simp [hz, hb] at h
          · cases hal : (transferGate state fromAcc toAcc amount ctx now today
                getHours).allowed
            · simp only [hz, hb, hal, Bool.not_false, if_true, if_neg,
                Bool.false_eq_true, if_false] at h
              have hs : ({ state with
                  transactions := state.transactions ++
                    [blockedTransferTx state fromAcc toAcc amount ctx now today
                      getHours txId mlScore] } : StoreState) = s' := by
                have := congrArg Prod.fst h
                simpa using this
              rw [← hs]
              simp only [List.getLast?_concat]
              rfl
            · cases hstep : (transferGate state fromAcc toAcc amount ctx now
                  today getHours).requiresMFA && !mfaRequired
              · simp [hz, hb, hal, hstep] at h
              · simp [hz, hb, hal, hstep] at h
  · intro state now today getHours txId alertId mlScore fromAcc muleAcc hf hm
    unfold runAccountTakeoverPhase3
    rw [hf, hm]
    simp only [List.getLast?_concat]
    rfl
  · intro state now today getHours txId alertId mlScore fromAcc muleAcc hf hm
    unfold runPhishingPhase3
    rw [hf, hm]
    simp only [List.getLast?_concat]
    rfl

/-- Witness for C10: the low-risk blacklisted transfer — its recorded
transaction is blocked and flagged at risk 20; and the ATO phase on the seed
records a flagged transaction. -/
theorem c10_witness :
    (lowRiskBlockedState.transactions.getLast?).map (fun t =>
      (t.status, t.isFlagged)) = some (TxStatus.blocked, true)
    ∧ (atoResult.transactions.getLast?).map (fun t => t.isFlagged) = some true := by
  constructor
  · exact c10_blocked_always_flagged.1 seedState "9001234567" "9009876543" 100
      { ip := "185.220.101.1", device := "Chrome/Windows", geo := "Manila, PH" }
      0 "D1" tenOclock "tx1" "al1" 0 false lowRiskBlockedState
      (some "IP 185.220.101.1 is blacklisted")
      (by
        have h2 : (executeTransfer seedState "9001234567" "9009876543" 100
            { ip := "185.220.101.1", device := "Chrome/Windows"
              geo := "Manila, PH" } 0 "D1" tenOclock "tx1" "al1" 0 false).2 =
            TransferOutcome.blockedDenied
              (some "IP 185.220.101.1 is blacklisted") := by decide
        rw [← h2]
        rfl)
  · exact c10_blocked_always_flagged.2.1 seedState 0 "D1" tenOclock "tx1" "al1" 0
      { id := "acc_001", userId := "user_001", accountNumber := "9001234567"
        balance := 150000, dailyTransferred := 0, dailyTransferDate := ""
        isFrozen := false }
      { id := "acc_mule", userId := "user_mule", accountNumber := "9006660001"
        balance := 500, dailyTransferred := 0, dailyTransferDate := ""
        isFrozen := false }
      (by decide) (by decide)

end BankingFraud
